import Mathlib

/-!
Verification of `transformer.py`: a CSV → SAREF-RDF transformer.

The shallow embedding below models the program over exact data:
* Python strings are Lean `String`s, manipulated through their `List Char` data
  (all string helpers are ASCII-faithful; the source only ever handles ASCII
  column names and cell payloads).
* A CSV cell after the external table reader (pandas) is an `Option String`:
  `none` is a missing/NA cell, `some s` a textual payload.
* Python `float(...)` is modelled exactly over `ℚ` (plus infinities and NaN):
  the binary rounding of IEEE floats is abstracted away, the accept/reject
  behaviour of the grammar is modelled faithfully.
* The rdflib graph is modelled as the list of statements in the order the
  program adds them; rdflib set-semantics only collapses exact duplicates and
  none of the verified properties depend on that.
-/

namespace TurtleTransformer

/-! ## Python string primitives (over `List Char`) -/

/-- Characters stripped by Python `str.strip()` (ASCII whitespace). -/
def isPySpace (c : Char) : Bool :=
  c == ' ' || c == '\t' || c == '\n' || c == '\r' || c == '\x0b' || c == '\x0c'

/-- Python `str.strip()`. -/
def pyStrip (s : String) : String :=
  String.mk (((s.data.dropWhile isPySpace).reverse.dropWhile isPySpace).reverse)

/-- Python `str.lower()` on a character list (ASCII). -/
def pyLowerL (l : List Char) : List Char := l.map Char.toLower

/-- Python `str.lower()` (ASCII). -/
def pyLower (s : String) : String := String.mk (pyLowerL s.data)

/-- Python `str.split(sep)` for a single-character separator:
splitting the empty string yields `[""]`, like Python. -/
def splitOnCharL (sep : Char) : List Char → List (List Char)
  | [] => [[]]
  | c :: rest =>
    match splitOnCharL sep rest with
    | [] => [[]]
    | g :: gs => if c == sep then [] :: g :: gs else (c :: g) :: gs

/-- Python `"a|b".split('|')` then viewed as `String`s. -/
def pySplitPipe (s : String) : List String :=
  (splitOnCharL '|' s.data).map String.mk

/-- Worker for `pyReplace`: `skip` counts characters still inside an already
replaced (non-overlapping, left-to-right) occurrence of the pattern. -/
def pyReplaceAux (pat repl : List Char) (skip : Nat) : List Char → List Char
  | [] => []
  | c :: rest =>
    match skip with
    | k + 1 => pyReplaceAux pat repl k rest
    | 0 =>
      if pat ≠ [] ∧ pat.isPrefixOf (c :: rest) then
        repl ++ pyReplaceAux pat repl (pat.length - 1) rest
      else
        c :: pyReplaceAux pat repl 0 rest

/-- Python `str.replace(pat, repl)` (all non-overlapping occurrences,
left to right). The source only calls it with nonempty patterns, so the
empty-pattern case just returns the string unchanged. -/
def pyReplace (pat repl s : String) : String :=
  if pat.data = [] then s else String.mk (pyReplaceAux pat.data repl.data 0 s.data)

/-! ## Python `float()` over exact rationals -/

/-- Result of a successful Python `float(...)`: a finite value is kept as the
exact rational the literal denotes (IEEE rounding abstracted away). -/
inductive PyFloat where
  | fin (q : ℚ)
  | inf
  | ninf
  | nan
deriving DecidableEq, Repr

/-- Consume a Python `digitpart` continuation: digits with single underscores
allowed between digits. Returns the accumulated value, the number of digits
consumed and the remaining input. -/
def digitsAux (acc count : Nat) : List Char → Nat × Nat × List Char
  | [] => (acc, count, [])
  | c :: rest =>
    if c.isDigit then digitsAux (10 * acc + (c.toNat - 48)) (count + 1) rest
    else if c = '_' then
      match rest with
      | d :: rest2 =>
        if d.isDigit then digitsAux (10 * acc + (d.toNat - 48)) (count + 1) rest2
        else (acc, count, c :: rest)
      | [] => (acc, count, [c])
    else (acc, count, c :: rest)

/-- Python `digitpart`: must start with a digit. -/
def parseDigitPart (l : List Char) : Option (Nat × Nat × List Char) :=
  match l with
  | c :: _ => if c.isDigit then some (digitsAux 0 0 l) else none
  | [] => none

/-- Python float exponent after the `e`/`E`: optional sign then a digitpart. -/
def parseExp (l : List Char) : Option (Int × List Char) :=
  let signAndRest : Int × List Char :=
    match l with
    | '+' :: r => (1, r)
    | '-' :: r => (-1, r)
    | _ => (1, l)
  match parseDigitPart signAndRest.2 with
  | some (v, _, rest) => some (signAndRest.1 * (v : Int), rest)
  | none => none

/-- Assemble the value of a parsed decimal literal
`sign ip.fv × 10^e` as an exact rational. -/
def pyFloatVal (neg : Bool) (ip fv fc : Nat) (e : Int) : PyFloat :=
  let mantNum : Int := (ip * 10 ^ fc + fv : Nat)
  let num : Int := if neg then -mantNum else mantNum
  if 0 ≤ e then .fin (mkRat (num * 10 ^ e.toNat) (10 ^ fc))
  else .fin (mkRat num (10 ^ fc * 10 ^ (-e).toNat))

/-- Parse the numeric (non-keyword) body of a Python float literal. -/
def pyFloatNum (neg : Bool) (l : List Char) : Option PyFloat :=
  let ipPart : Nat × Nat × List Char :=
    match parseDigitPart l with
    | some t => t
    | none => (0, 0, l)
  let frPart : Nat × Nat × List Char :=
    match ipPart.2.2 with
    | '.' :: r =>
      (match parseDigitPart r with
       | some t => t
       | none => (0, 0, r))
    | _ => (0, 0, ipPart.2.2)
  if ipPart.2.1 + frPart.2.1 = 0 then none
  else
    match frPart.2.2 with
    | [] => some (pyFloatVal neg ipPart.1 frPart.1 frPart.2.1 0)
    | c :: r =>
      if c = 'e' ∨ c = 'E' then
        match parseExp r with
        | some (e, []) => some (pyFloatVal neg ipPart.1 frPart.1 frPart.2.1 e)
        | _ => none
      else none

/-- Python `float(s)`: strip ASCII whitespace, optional sign, then either a
case-insensitive `inf`/`infinity`/`nan` keyword or a decimal literal with
optional fraction and exponent (underscores allowed inside digit runs).
`none` models a raised `ValueError`. -/
def pyFloat (s : String) : Option PyFloat :=
  let l := ((s.data.dropWhile isPySpace).reverse.dropWhile isPySpace).reverse
  let signAndRest : Bool × List Char :=
    match l with
    | '+' :: r => (false, r)
    | '-' :: r => (true, r)
    | _ => (false, l)
  let neg := signAndRest.1
  let body := signAndRest.2
  let low := pyLowerL body
  if low = "inf".data ∨ low = "infinity".data then some (if neg then .ninf else .inf)
  else if low = "nan".data then some .nan
  else pyFloatNum neg body

/-! ## RDF terms and vocabulary -/

/-- An RDF term as the program builds them: a URI, a plain string literal, a
datatyped literal kept as its lexical form, or the `xsd:float`-typed literal
built from a Python float value. -/
inductive Term where
  | uri (s : String)
  | litStr (s : String)
  | litTyped (lexical : String) (datatype : String)
  | litFloat (v : PyFloat)
deriving DecidableEq, Repr

/-- One RDF statement (subject, predicate, object). -/
abbrev Triple := Term × Term × Term

def EX : String := "http://example.com/"
def EXDATA : String := "http://example.com/data/"
def SAREF : String := "https://saref.etsi.org/core/"
def RDF_type : String := "http://www.w3.org/1999/02/22-rdf-syntax-ns#type"
def RDFS_label : String := "http://www.w3.org/2000/01/rdf-schema#label"
def XSD_dateTime : String := "http://www.w3.org/2001/XMLSchema#dateTime"
def SAREF_Sensor : String := SAREF ++ "Sensor"
def SAREF_Property : String := SAREF ++ "Property"
def SAREF_FeatureOfInterest : String := SAREF ++ "FeatureOfInterest"
def SAREF_Observation : String := SAREF ++ "Observation"
def SAREF_measuresProperty : String := SAREF ++ "measuresProperty"
def SAREF_hasTimestamp : String := SAREF ++ "hasTimestamp"
def SAREF_hasValue : String := SAREF ++ "hasValue"
def SAREF_madeBySensor : String := SAREF ++ "madeBySensor"
def SAREF_relatesToProperty : String := SAREF ++ "relatesToProperty"
def SAREF_isAbout : String := SAREF ++ "isAbout"

/-! ## Identifier derivation (lines 13–39 of transformer.py) -/

/-- `sanitize_for_uri`: drop one leading `DE_KN_` marker (the `^`-anchored
`re.sub`), then replace every character outside `[a-zA-Z0-9_]` by `_`. -/
def sanitize_for_uri (text : String) : String :=
  let l := if "DE_KN_".data.isPrefixOf text.data then text.data.drop 6 else text.data
  String.mk (l.map (fun c => if c.isAlpha || c.isDigit || c = '_' then c else '_'))

/-- The anchored match `DE_KN_([a-zA-Z]+[0-9]+)(_|$)` of
`get_feature_of_interest_uri`. Both `+` runs are forced maximal (letters
cannot continue into the digit run and a shorter digit run would face another
digit instead of `_`/end), so greedy scanning without backtracking is exact.
Python's `$` also matches just before one final newline. -/
def locationMatch (name : String) : Option String :=
  if "DE_KN_".data.isPrefixOf name.data then
    let rest := name.data.drop 6
    let letters := rest.takeWhile (fun c => c.isAlpha)
    let afterL := rest.dropWhile (fun c => c.isAlpha)
    let digits := afterL.takeWhile (fun c => c.isDigit)
    let afterD := afterL.dropWhile (fun c => c.isDigit)
    if letters ≠ [] ∧ digits ≠ [] ∧
        (afterD = [] ∨ afterD = ['\n'] ∨ afterD.head? = some '_') then
      some (String.mk (letters ++ digits))
    else none
  else none

/-- The URI built for a matched location token. -/
def foiURI (tok : String) : String := EXDATA ++ ("Location_" ++ tok)

/-- `get_feature_of_interest_uri`: the `Location_…` URI, or `None` when the
column name lacks the location pattern. -/
def get_feature_of_interest_uri (column_name : String) : Option String :=
  (locationMatch column_name).map foiURI

/-- `get_sensor_uri`. -/
def get_sensor_uri (column_name : String) : String :=
  EXDATA ++ ("Sensor_" ++ sanitize_for_uri column_name)

/-- The group of the anchored match `DE_KN_[a-zA-Z]+[0-9]+_(.+)` in
`get_property_uri`. As in `locationMatch`, both `+` runs are forced maximal.
The group `.+` is greedy and `.` does not cross a newline, so the group is
everything after the underscore up to a newline or the end, and must be
nonempty. -/
def propertyMatch (name : String) : Option String :=
  if "DE_KN_".data.isPrefixOf name.data then
    let rest := name.data.drop 6
    let letters := rest.takeWhile (fun c => c.isAlpha)
    let afterL := rest.dropWhile (fun c => c.isAlpha)
    let digits := afterL.takeWhile (fun c => c.isDigit)
    let afterD := afterL.dropWhile (fun c => c.isDigit)
    if letters ≠ [] ∧ digits ≠ [] then
      match afterD with
      | '_' :: tail =>
        let grp := tail.takeWhile (fun c => c ≠ '\n')
        if grp ≠ [] then some (String.mk grp) else none
      | _ => none
    else none
  else none

/-- The property name token: the sanitized match group, or the sanitized whole
column name as fallback. -/
def property_token (column_name : String) : String :=
  match propertyMatch column_name with
  | some rest => sanitize_for_uri rest
  | none => sanitize_for_uri column_name

/-- `get_property_uri`. -/
def get_property_uri (column_name : String) : String :=
  EX ++ ("Property_" ++ property_token column_name)

/-! ## Entity registry (lines 58–96) -/

def reservedColumns : List String :=
  ["utc_timestamp", "cet_cest_timestamp", "interpolated"]

/-- Line 62–65: a column qualifies iff it contains an underscore and is not a
reserved column. -/
def measurementColumns (allColumns : List String) : List String :=
  allColumns.filter (fun col => decide ('_' ∈ col.data ∧ col ∉ reservedColumns))

/-- The three statements added when a sensor URI is first seen (lines 77–82). -/
def sensorBlock (col : String) : List Triple :=
  [(.uri (get_sensor_uri col), .uri RDF_type, .uri SAREF_Sensor),
   (.uri (get_sensor_uri col), .uri RDFS_label, .litStr ("Sensor for " ++ col)),
   (.uri (get_sensor_uri col), .uri SAREF_measuresProperty, .uri (get_property_uri col))]

/-- The two statements added when a property URI is first seen (lines 84–87). -/
def propertyBlock (col : String) : List Triple :=
  [(.uri (get_property_uri col), .uri RDF_type, .uri SAREF_Property),
   (.uri (get_property_uri col), .uri RDFS_label, .litStr ("Property measured by " ++ col))]

/-- Line 92: label text extracted back out of the FeatureOfInterest URI. -/
def foiLabelText (foi : String) : String :=
  let lastSeg := String.mk ((splitOnCharL '/' foi.data).getLastD [])
  "Location " ++ pyReplace "_" " " (pyReplace "Location_" "" lastSeg)

/-- The two statements added when a FeatureOfInterest URI is first seen
(lines 89–94). -/
def foiBlock (foi : String) : List Triple :=
  [(.uri foi, .uri RDF_type, .uri SAREF_FeatureOfInterest),
   (.uri foi, .uri RDFS_label, .litStr (foiLabelText foi))]

/-- The entity-declaration loop (lines 72–94), carrying the three seen-sets
`defined_sensors` / `defined_properties` / `defined_fois` (Python sets of URI
strings, used only through membership, modelled as lists). -/
def declareEntitiesAux : List String → List String → List String → List String → List Triple
  | [], _, _, _ => []
  | col :: rest, sSeen, pSeen, fSeen =>
    let su := get_sensor_uri col
    let pu := get_property_uri col
    let fu := get_feature_of_interest_uri col
    (if su ∈ sSeen then [] else sensorBlock col) ++
    (if pu ∈ pSeen then [] else propertyBlock col) ++
    (match fu with
     | some f => if f ∈ fSeen then [] else foiBlock f
     | none => []) ++
    declareEntitiesAux rest
      (if su ∈ sSeen then sSeen else su :: sSeen)
      (if pu ∈ pSeen then pSeen else pu :: pSeen)
      (match fu with
       | some f => if f ∈ fSeen then fSeen else f :: fSeen
       | none => fSeen)

/-- The entity declarations of a whole run, seen-sets initially empty. -/
def declareEntities (cols : List String) : List Triple :=
  declareEntitiesAux cols [] [] []

/-! ## Row materialization (lines 100–143) -/

/-- A CSV table after the external reader: a header and rows of cells aligned
with the header. `none` cells are missing/NA values. -/
structure CSVTable where
  header : List String
  rows : List (List (Option String))

/-- Index of the first column with the given name. -/
def lookupIdx (name : String) : List String → Option Nat
  | [] => none
  | h :: t => if h = name then some 0 else (lookupIdx name t).map (· + 1)

/-- `row[name]`: `none` models a `KeyError` (column absent from the header);
a row shorter than the header reads as missing cells, as pandas pads with NA. -/
def lookupCell (header : List String) (cells : List (Option String)) (name : String) :
    Option (Option String) :=
  (lookupIdx name header).map (fun i => cells.getD i none)

/-- Lines 106–110: the per-row exclusion set. A present marker cell that is
not the (lowercased) `nan` sentinel is split on `|`, tokens are stripped, and
each token's sensor URI is collected. -/
def interpolationExclusions (cell : Option String) : List String :=
  match cell with
  | none => []
  | some s =>
    if pyLower s ≠ "nan" then ((pySplitPipe s).map pyStrip).map get_sensor_uri
    else []

/-- The Observation URI (line 127). -/
def obs_uri (col timestamp_str : String) : String :=
  EXDATA ++ ("Observation_" ++ (sanitize_for_uri col ++ ("_" ++ timestamp_str)))

/-- Lines 129–136: the statements added for one accepted Observation. -/
def obsBlock (timestamp_str col : String) (numeric_value : PyFloat) : List Triple :=
  let o := obs_uri col timestamp_str
  [(.uri o, .uri RDF_type, .uri SAREF_Observation),
   (.uri o, .uri SAREF_hasTimestamp, .litTyped timestamp_str XSD_dateTime),
   (.uri o, .uri SAREF_hasValue, .litFloat numeric_value),
   (.uri o, .uri SAREF_madeBySensor, .uri (get_sensor_uri col)),
   (.uri o, .uri SAREF_relatesToProperty, .uri (get_property_uri col))] ++
  (match get_feature_of_interest_uri col with
   | some foi => [(.uri o, .uri SAREF_isAbout, .uri foi)]
   | none => [])

/-- Lines 112–140: the statements added for one (row, column) pair. Skips an
excluded sensor, a missing cell, and a cell rejected by `float(...)` (the
inner `except ValueError`); otherwise adds the Observation statements. -/
def processCell (excludedSensors : List String) (timestamp_str col : String)
    (cell : Option String) : List Triple :=
  if get_sensor_uri col ∈ excludedSensors then []
  else
    match cell with
    | none => []
    | some value =>
      match pyFloat value with
      | none => []
      | some numeric_value => obsBlock timestamp_str col numeric_value

/-- Result of processing one row: `ok` when the row completed, `failed` when a
row-level exception was raised (and caught by the handler on lines 141–143);
either way the payload lists the statements the row had already added. -/
inductive RowOutcome where
  | ok (triples : List Triple)
  | failed (triples : List Triple)
deriving DecidableEq, Repr

/-- The statements a row contributed to the graph (kept even when the row
later failed, since `g.add` has already happened). -/
def RowOutcome.triples : RowOutcome → List Triple
  | .ok t => t
  | .failed t => t

/-- The per-column loop of one row. A `KeyError` on `row[col]` aborts the row
with the statements accumulated so far. -/
def processColumns (header : List String) (cells : List (Option String))
    (excludedSensors : List String) (timestamp_str : String) :
    List String → RowOutcome
  | [] => .ok []
  | col :: rest =>
    match lookupCell header cells col with
    | none => .failed []
    | some cell =>
      let t := processCell excludedSensors timestamp_str col cell
      match processColumns header cells excludedSensors timestamp_str rest with
      | .ok more => .ok (t ++ more)
      | .failed more => .failed (t ++ more)

/-- One iteration of the row loop (lines 100–143). The reads of
`row['utc_timestamp']` and `row['interpolated']` happen before any statement
is added, so their `KeyError`s fail the row with an empty contribution.
A missing timestamp cell reads as float NaN whose string form is `"nan"`. -/
def processRow (mcols header : List String) (cells : List (Option String)) : RowOutcome :=
  match lookupCell header cells "utc_timestamp" with
  | none => .failed []
  | some tsCell =>
    match lookupCell header cells "interpolated" with
    | none => .failed []
    | some interpCell =>
      processColumns header cells (interpolationExclusions interpCell)
        (match tsCell with | some s => s | none => "nan") mcols

/-- `transform_csv_to_rdf` (lines 43–143): the statements of the whole run in
the order they are added — entity declarations from the header first, then
each row's observations, failed rows contributing what they had added. -/
def transform_csv_to_rdf (csv : CSVTable) : List Triple :=
  let mcols := measurementColumns csv.header
  declareEntities mcols ++
    (csv.rows.map (fun r => (processRow mcols csv.header r).triples)).flatten

/-! ## Command surface (lines 145–154) -/

def defaultOutputFilepath : String := "graph.ttl"

/-- The `__main__` block (lines 152–154): `csv_file = sys.argv[1]` (crash when
absent, modelled as `none`), then `transform_csv_to_rdf(csv_file)` called with
no second argument, so `output_filepath` always takes its default. Input is
the argument list after the script name; output the chosen (input, output)
paths. -/
def mainArgvPaths (argv : List String) : Option (String × String) :=
  match argv with
  | [] => none
  | inputPath :: _ => some (inputPath, defaultOutputFilepath)

/-- Lines 145–150: exit status of the run as a function of whether
`g.serialize` succeeded. -/
def serializeExitCode (serializeOk : Bool) : Nat :=
  if serializeOk then 0 else 1

/-- Number of statements satisfying a predicate. -/
def countTriples (g : List Triple) (p : Triple → Bool) : Nat := g.countP p

/-- Statement has the given subject. -/
def subjIs (u : String) (t : Triple) : Bool := decide (t.1 = Term.uri u)

/-- Statement has the given predicate. -/
def predIs (p : String) (t : Triple) : Bool := decide (t.2.1 = Term.uri p)

/-- Statement declares its subject to be of the given class. -/
def typeIs (c : String) (t : Triple) : Bool :=
  decide (t.2.1 = Term.uri RDF_type) && decide (t.2.2 = Term.uri c)

/-! ## Infrastructure: the four URI families are pairwise disjoint -/

theorem strAppendAssoc (a b c : String) : a ++ b ++ c = a ++ (b ++ c) := by
  apply String.ext
  simp [String.data_append, List.append_assoc]

/-- Two appends with fixed heads that differ at some character index are
distinct strings, whatever the tails. -/
theorem stringAppendNe {p q : String} {i : Nat} {a b : Char}
    (hp : p.data[i]? = some a) (hq : q.data[i]? = some b) (hab : a ≠ b) :
    ∀ s t : String, p ++ s ≠ q ++ t := by
  intro s t h
  have hd : (p ++ s).data = (q ++ t).data := by rw [h]
  rw [String.data_append, String.data_append] at hd
  have hip : i < p.data.length := by
    by_contra hc
    push_neg at hc
    rw [List.getElem?_eq_none hc] at hp
    exact Option.noConfusion hp
  have hiq : i < q.data.length := by
    by_contra hc
    push_neg at hc
    rw [List.getElem?_eq_none hc] at hq
    exact Option.noConfusion hq
  have h1 : (p.data ++ s.data)[i]? = some a := by
    rw [List.getElem?_append_left hip]; exact hp
  have h2 : (q.data ++ t.data)[i]? = some b := by
    rw [List.getElem?_append_left hiq]; exact hq
  rw [hd] at h1
  rw [h1] at h2
  exact hab (Option.some.inj h2)

theorem get_sensor_uri_eq (col : String) :
    get_sensor_uri col = "http://example.com/data/Sensor_" ++ sanitize_for_uri col := by
  unfold get_sensor_uri
  rw [← strAppendAssoc]
  congr 1

theorem get_property_uri_eq (col : String) :
    get_property_uri col = "http://example.com/Property_" ++ property_token col := by
  unfold get_property_uri
  rw [← strAppendAssoc]
  congr 1

theorem foiURI_eq (tok : String) :
    foiURI tok = "http://example.com/data/Location_" ++ tok := by
  unfold foiURI
  rw [← strAppendAssoc]
  congr 1

theorem obs_uri_eq (col ts : String) :
    obs_uri col ts =
      "http://example.com/data/Observation_" ++ (sanitize_for_uri col ++ ("_" ++ ts)) := by
  unfold obs_uri
  rw [← strAppendAssoc]
  congr 1

theorem property_ne_sensor (a b : String) : get_property_uri a ≠ get_sensor_uri b := by
  rw [get_property_uri_eq, get_sensor_uri_eq]
  exact @stringAppendNe _ _ 19 'P' 'd' (by decide) (by decide) (by decide) _ _

theorem sensor_ne_property (a b : String) : get_sensor_uri a ≠ get_property_uri b :=
  fun h => property_ne_sensor b a h.symm

theorem foi_ne_sensor (tok b : String) : foiURI tok ≠ get_sensor_uri b := by
  rw [foiURI_eq, get_sensor_uri_eq]
  exact @stringAppendNe _ _ 24 'L' 'S' (by decide) (by decide) (by decide) _ _

theorem foi_ne_property (tok b : String) : foiURI tok ≠ get_property_uri b := by
  rw [foiURI_eq, get_property_uri_eq]
  exact @stringAppendNe _ _ 19 'd' 'P' (by decide) (by decide) (by decide) _ _

theorem obs_ne_sensor (c ts b : String) : obs_uri c ts ≠ get_sensor_uri b := by
  rw [obs_uri_eq, get_sensor_uri_eq]
  exact @stringAppendNe _ _ 24 'O' 'S' (by decide) (by decide) (by decide) _ _

theorem obs_ne_property (c ts b : String) : obs_uri c ts ≠ get_property_uri b := by
  rw [obs_uri_eq, get_property_uri_eq]
  exact @stringAppendNe _ _ 19 'd' 'P' (by decide) (by decide) (by decide) _ _

theorem obs_ne_foi (c ts tok : String) : obs_uri c ts ≠ foiURI tok := by
  rw [obs_uri_eq, foiURI_eq]
  exact @stringAppendNe _ _ 24 'O' 'L' (by decide) (by decide) (by decide) _ _

/-! ## Helper lemmas about the observation block -/

theorem countObs_obsBlock (ts col : String) (q : PyFloat) :
    countTriples (obsBlock ts col q) (typeIs SAREF_Observation) = 1 := by
  unfold countTriples obsBlock typeIs
  cases get_feature_of_interest_uri col with
  | none =>
    simp [List.countP_cons, RDF_type, SAREF_hasTimestamp, SAREF_hasValue, SAREF_madeBySensor,
      SAREF_relatesToProperty, SAREF]
  | some f =>
    simp [List.countP_cons, RDF_type, SAREF_hasTimestamp, SAREF_hasValue, SAREF_madeBySensor,
      SAREF_relatesToProperty, SAREF_isAbout, SAREF]

theorem hasValue_mem_obsBlock (ts col : String) (q : PyFloat) :
    (Term.uri (obs_uri col ts), Term.uri SAREF_hasValue, Term.litFloat q) ∈ obsBlock ts col q := by
  unfold obsBlock
  cases get_feature_of_interest_uri col <;> simp

/-! ## Claim theorems -/

/-- The header and single row of the spec's first example scenario. -/
def exampleCSV : CSVTable :=
  ⟨["utc_timestamp", "interpolated", "DE_KN_Building1_Grid_import"],
   [[some "2015-01-01T00:00:00Z", some "nan", some "3.5"]]⟩

/-- C1: for the header `["utc_timestamp","interpolated","DE_KN_Building1_Grid_import"]`
and the single row `["2015-01-01T00:00:00Z","nan","3.5"]`, the transformation
declares exactly one Sensor (`Sensor_Building1_Grid_import`), exactly one
Property (`Property_Grid_import`), exactly one FeatureOfInterest
(`Location_Building1`), and emits exactly one Observation whose value literal
equals 3.5 and which carries madeBySensor, relatesToProperty and isAbout
links to those three entities. -/
theorem c1_single_row_scenario :
    countTriples (transform_csv_to_rdf exampleCSV) (typeIs SAREF_Sensor) = 1 ∧
    countTriples (transform_csv_to_rdf exampleCSV) (typeIs SAREF_Property) = 1 ∧
    countTriples (transform_csv_to_rdf exampleCSV) (typeIs SAREF_FeatureOfInterest) = 1 ∧
    countTriples (transform_csv_to_rdf exampleCSV) (typeIs SAREF_Observation) = 1 ∧
    (Term.uri "http://example.com/data/Sensor_Building1_Grid_import", Term.uri RDF_type,
      Term.uri SAREF_Sensor) ∈ transform_csv_to_rdf exampleCSV ∧
    (Term.uri "http://example.com/Property_Grid_import", Term.uri RDF_type,
      Term.uri SAREF_Property) ∈ transform_csv_to_rdf exampleCSV ∧
    (Term.uri "http://example.com/data/Location_Building1", Term.uri RDF_type,
      Term.uri SAREF_FeatureOfInterest) ∈ transform_csv_to_rdf exampleCSV ∧
    (Term.uri "http://example.com/data/Observation_Building1_Grid_import_2015-01-01T00:00:00Z",
      Term.uri SAREF_hasValue, Term.litFloat (.fin (mkRat 7 2))) ∈ transform_csv_to_rdf exampleCSV ∧
    (Term.uri "http://example.com/data/Observation_Building1_Grid_import_2015-01-01T00:00:00Z",
      Term.uri SAREF_madeBySensor,
      Term.uri "http://example.com/data/Sensor_Building1_Grid_import") ∈
      transform_csv_to_rdf exampleCSV ∧
    (Term.uri "http://example.com/data/Observation_Building1_Grid_import_2015-01-01T00:00:00Z",
      Term.uri SAREF_relatesToProperty,
      Term.uri "http://example.com/Property_Grid_import") ∈ transform_csv_to_rdf exampleCSV ∧
    (Term.uri "http://example.com/data/Observation_Building1_Grid_import_2015-01-01T00:00:00Z",
      Term.uri SAREF_isAbout,
      Term.uri "http://example.com/data/Location_Building1") ∈ transform_csv_to_rdf exampleCSV := by
  decide

/-- Header whose measurement column `DE_KN_nan` has the same sensor identity
as the token of a `"nan"` interpolation-marker cell. -/
def c3CSV : CSVTable :=
  ⟨["utc_timestamp", "interpolated", "DE_KN_nan"],
   [[some "2015-01-01T00:00:00Z", some "nan", some "1.0"]]⟩

/-- C3 counterexample: the claim quantifies over every pipe-delimited trimmed
token of the marker cell, but the code treats a cell whose lowercase form is
`"nan"` as the missing sentinel and skips the exclusion entirely. For the
column `DE_KN_nan` and marker cell `"nan"`, the token `"nan"` derives the same
sensor identity as the column, yet an Observation for that (row, column) pair
is still emitted. -/
theorem c3_counterexample :
    "nan" ∈ (pySplitPipe "nan").map pyStrip ∧
    get_sensor_uri "nan" = get_sensor_uri "DE_KN_nan" ∧
    "DE_KN_nan" ∈ measurementColumns c3CSV.header ∧
    countTriples (transform_csv_to_rdf c3CSV) (typeIs SAREF_Observation) = 1 := by
  decide

/-- C3 (amended): provided the interpolation-marker cell is present and its
lowercased value is not the `"nan"` sentinel, if the sensor identity of any
pipe-delimited whitespace-trimmed token of the cell equals the sensor identity
of column `col`, then no Observation statements are emitted for that
(row, column) pair. -/
theorem c3_interpolation_exclusion (s tok col ts : String) (cell : Option String)
    (hnan : pyLower s ≠ "nan")
    (htok : tok ∈ (pySplitPipe s).map pyStrip)
    (hid : get_sensor_uri tok = get_sensor_uri col) :
    processCell (interpolationExclusions (some s)) ts col cell = [] := by
  have hmem : get_sensor_uri col ∈ interpolationExclusions (some s) := by
    show get_sensor_uri col ∈
      (if pyLower s ≠ "nan" then ((pySplitPipe s).map pyStrip).map get_sensor_uri else [])
    rw [if_pos hnan, ← hid]
    exact List.mem_map_of_mem _ htok
  unfold processCell
  rw [if_pos hmem]

theorem c3_witness :
    pyLower "DE_KN_a_b" ≠ "nan" ∧
    "DE_KN_a_b" ∈ (pySplitPipe "DE_KN_a_b").map pyStrip ∧
    processCell (interpolationExclusions (some "DE_KN_a_b")) "t0" "DE_KN_a_b"
      (some "3.5") = [] :=
  ⟨by decide, by decide,
   c3_interpolation_exclusion "DE_KN_a_b" "DE_KN_a_b" "DE_KN_a_b" "t0" (some "3.5")
     (by decide) (by decide) rfl⟩

/-- C4: for a (row, column) pair over a qualifying column whose sensor is not
excluded by interpolation: a missing cell or a cell rejected by float parsing
emits nothing (and raises nothing — `processCell` is total); a successfully
parsed cell emits exactly one Observation whose value literal is the parsed
float value. -/
theorem c4_numeric_gating (excl : List String) (ts col : String) (cell : Option String)
    (h : get_sensor_uri col ∉ excl) :
    (cell = none → processCell excl ts col cell = []) ∧
    (∀ v, cell = some v → pyFloat v = none → processCell excl ts col cell = []) ∧
    (∀ v q, cell = some v → pyFloat v = some q →
      countTriples (processCell excl ts col cell) (typeIs SAREF_Observation) = 1 ∧
      (Term.uri (obs_uri col ts), Term.uri SAREF_hasValue, Term.litFloat q) ∈
        processCell excl ts col cell) := by
  refine ⟨?_, ?_, ?_⟩
  · intro hc
    unfold processCell
    rw [if_neg h, hc]
  · intro v hc hp
    unfold processCell
    rw [if_neg h, hc]
    simp [hp]
  · intro v q hc hp
    unfold processCell
    rw [if_neg h, hc]
    simp only [hp]
    exact ⟨countObs_obsBlock ts col q, hasValue_mem_obsBlock ts col q⟩

theorem c4_witness :
    get_sensor_uri "DE_KN_Building1_Grid_import" ∉ ([] : List String) ∧
    pyFloat "3.5" = some (.fin (mkRat 7 2)) ∧
    countTriples
      (processCell [] "2015-01-01T00:00:00Z" "DE_KN_Building1_Grid_import" (some "3.5"))
      (typeIs SAREF_Observation) = 1 :=
  ⟨by simp, by decide,
   ((c4_numeric_gating [] "2015-01-01T00:00:00Z" "DE_KN_Building1_Grid_import"
       (some "3.5") (by simp)).2.2 "3.5" (.fin (mkRat 7 2)) rfl (by decide)).1⟩

/-- C6 counterexample: the claim says a supplied second argument selects the
output path, but the `__main__` block never forwards `sys.argv[2]`; with argv
`["input.csv", "custom.ttl"]` the run still writes to the default
`graph.ttl`. -/
theorem c6_counterexample :
    mainArgvPaths ["input.csv", "custom.ttl"] = some ("input.csv", "graph.ttl") ∧
    ("graph.ttl" : String) ≠ "custom.ttl" := by
  decide

/-- C6 (amended): the command surface takes one positional argument, the input
table path; the function has an optional output-path parameter defaulting to
`graph.ttl`, but the CLI never forwards a second argument, so the output path
is always the default. The process exits with 0 on success and 1 exactly when
serialization fails. -/
theorem c6_command_surface (inputPath : String) (rest : List String) (serializeOk : Bool) :
    mainArgvPaths (inputPath :: rest) = some (inputPath, defaultOutputFilepath) ∧
    defaultOutputFilepath = "graph.ttl" ∧
    mainArgvPaths [] = none ∧
    (serializeExitCode serializeOk = 0 ↔ serializeOk = true) ∧
    (serializeExitCode serializeOk ≠ 0 ↔ serializeOk = false) := by
  refine ⟨rfl, rfl, rfl, ?_, ?_⟩ <;> cases serializeOk <;> simp [serializeExitCode]

/-- C7 counterexample: `DE_KN_B1` does not match the property shape
`DE_KN_<letters><digits>_<rest>` (there is no `_<rest>` part), yet its
location shape `DE_KN_<letters><digits>(_|$)` does match, so a
FeatureOfInterest `Location_B1` is declared and its Observations carry an
isAbout link — contradicting the claim that such a column yields no
FeatureOfInterest. -/
theorem c7_counterexample :
    propertyMatch "DE_KN_B1" = none ∧
    get_feature_of_interest_uri "DE_KN_B1" = some "http://example.com/data/Location_B1" ∧
    countTriples (declareEntities ["DE_KN_B1"]) (typeIs SAREF_FeatureOfInterest) = 1 ∧
    (processCell [] "t0" "DE_KN_B1" (some "1.0")).filter (predIs SAREF_isAbout) ≠ [] := by
  decide

/-- C7 (amended): a column name that does not match the
`<marker><letters><digits>_<rest>` property shape still yields the fallback
Property identity `Property_` + sanitized whole name (nonempty) and a Sensor
identity; when the column also fails the location shape
`<marker><letters><digits>(_|$)`, it yields no FeatureOfInterest, its
Observations omit the isAbout link, and no FeatureOfInterest is declared for
it. -/
theorem c7_fallback_naming (col : String) (hprop : propertyMatch col = none) :
    get_property_uri col = EX ++ ("Property_" ++ sanitize_for_uri col) ∧
    get_property_uri col ≠ "" ∧
    get_sensor_uri col = EXDATA ++ ("Sensor_" ++ sanitize_for_uri col) ∧
    (locationMatch col = none →
      get_feature_of_interest_uri col = none ∧
      (∀ excl ts cell, (processCell excl ts col cell).filter (predIs SAREF_isAbout) = []) ∧
      countTriples (declareEntities [col]) (typeIs SAREF_FeatureOfInterest) = 0) := by
  have hfallback : get_property_uri col = EX ++ ("Property_" ++ sanitize_for_uri col) := by
    unfold get_property_uri property_token
    rw [hprop]
  refine ⟨hfallback, ?_, rfl, ?_⟩
  · rw [get_property_uri_eq]
    intro hemp
    have h0 : (("http://example.com/Property_" : String) ++ property_token col).data[0]? =
        some 'h' := by
      rw [String.data_append, List.getElem?_append_left (by decide)]
      decide
    rw [hemp] at h0
    exact absurd h0 (by decide)
  · intro hloc
    have hfoi : get_feature_of_interest_uri col = none := by
      unfold get_feature_of_interest_uri
      rw [hloc]
      rfl
    refine ⟨hfoi, ?_, ?_⟩
    · intro excl ts cell
      unfold processCell
      by_cases hm : get_sensor_uri col ∈ excl
      · rw [if_pos hm]
        rfl
      · rw [if_neg hm]
        cases cell with
        | none => rfl
        | some v =>
          cases hp : pyFloat v with
          | none => simp [hp]
          | some q =>
            simp only [hp]
            unfold obsBlock
            rw [hfoi]
            simp [predIs, RDF_type, SAREF_hasTimestamp, SAREF_hasValue, SAREF_madeBySensor,
              SAREF_relatesToProperty, SAREF_isAbout, SAREF]
    · unfold declareEntities declareEntitiesAux countTriples
      rw [hfoi]
      simp [declareEntitiesAux, sensorBlock, propertyBlock, List.countP_cons, typeIs,
        SAREF_Sensor, SAREF_Property, SAREF_FeatureOfInterest, SAREF, RDF_type, RDFS_label,
        SAREF_measuresProperty]

theorem c7_witness :
    propertyMatch "temperature_outside" = none ∧
    locationMatch "temperature_outside" = none ∧
    get_property_uri "temperature_outside" =
      EX ++ ("Property_" ++ sanitize_for_uri "temperature_outside") ∧
    get_feature_of_interest_uri "temperature_outside" = none :=
  ⟨by decide, by decide, (c7_fallback_naming "temperature_outside" (by decide)).1,
   ((c7_fallback_naming "temperature_outside" (by decide)).2.2.2 (by decide)).1⟩

/-- C9: a present interpolation-marker cell whose lowercased value equals
`"nan"` is the missing sentinel: the row's exclusion set is empty and no
measurement column is excluded by interpolation. -/
theorem c9_nan_sentinel (s : String) (h : pyLower s = "nan") :
    interpolationExclusions (some s) = [] ∧
    ∀ col : String, get_sensor_uri col ∉ interpolationExclusions (some s) := by
  have he : interpolationExclusions (some s) = [] := by
    unfold interpolationExclusions
    simp [h]
  exact ⟨he, fun col => by simp [he]⟩

theorem c9_witness :
    pyLower "NaN" = "nan" ∧ interpolationExclusions (some "NaN") = [] :=
  ⟨by decide, (c9_nan_sentinel "NaN" (by decide)).1⟩

/-! ## Row-failure isolation (C5) -/

theorem lookupIdx_isSome (name : String) :
    ∀ header : List String, name ∈ header → (lookupIdx name header).isSome := by
  intro header
  induction header with
  | nil => intro h; cases h
  | cons a t ih =>
    intro h
    unfold lookupIdx
    by_cases ha : a = name
    · rw [if_pos ha]
      rfl
    · rw [if_neg ha]
      have hmem : name ∈ t := by
        cases List.mem_cons.mp h with
        | inl he => exact absurd he.symm ha
        | inr ht => exact ht
      have := ih hmem
      cases hidx : lookupIdx name t with
      | none => rw [hidx] at this; exact absurd this (by simp)
      | some i => rfl

theorem lookupCell_isSome (header : List String) (cells : List (Option String)) (name : String)
    (h : name ∈ header) : ∃ c, lookupCell header cells name = some c := by
  unfold lookupCell
  cases hidx : lookupIdx name header with
  | none =>
    have := lookupIdx_isSome name header h
    rw [hidx] at this
    exact absurd this (by simp)
  | some i => exact ⟨cells.getD i none, rfl⟩

theorem processColumns_ok (header : List String) (cells : List (Option String))
    (excl : List String) (ts : String) :
    ∀ cols : List String, (∀ c ∈ cols, c ∈ header) →
      ∃ t, processColumns header cells excl ts cols = .ok t := by
  intro cols
  induction cols with
  | nil => exact fun _ => ⟨[], rfl⟩
  | cons col rest ih =>
    intro hsub
    obtain ⟨cell, hcell⟩ := lookupCell_isSome header cells col (hsub col (by simp))
    obtain ⟨t, ht⟩ := ih (fun c hc => hsub c (List.mem_cons_of_mem _ hc))
    refine ⟨processCell excl ts col cell ++ t, ?_⟩
    unfold processColumns
    rw [hcell, ht]

theorem measurementColumns_subset (header : List String) :
    ∀ c ∈ measurementColumns header, c ∈ header :=
  fun _ hc => List.mem_of_mem_filter hc

/-- C5: a row-level exception is raised, caught and logged only before the row
has added any statement (the `row['utc_timestamp']` and `row['interpolated']`
reads precede every `g.add` of the loop body), so a failed row contributes no
statements and deleting it from the input leaves the output unchanged —
processing continues with the remaining rows and the run is not aborted. -/
theorem c5_row_failure_isolation (header : List String)
    (pre post : List (List (Option String))) (r : List (Option String)) (t : List Triple)
    (hfail : processRow (measurementColumns header) header r = .failed t) :
    t = [] ∧
    transform_csv_to_rdf ⟨header, pre ++ r :: post⟩ = transform_csv_to_rdf ⟨header, pre ++ post⟩ := by
  have ht : t = [] := by
    unfold processRow at hfail
    split at hfail
    · injection hfail with h
      exact h.symm
    · split at hfail
      · injection hfail with h
        exact h.symm
      · obtain ⟨tr, htr⟩ := processColumns_ok header r _ _ (measurementColumns header)
          (measurementColumns_subset header)
        rw [htr] at hfail
        exact RowOutcome.noConfusion hfail
  refine ⟨ht, ?_⟩
  unfold transform_csv_to_rdf
  simp only [List.map_append, List.map_cons, List.flatten_append, List.flatten_cons]
  rw [hfail, ht]
  simp [RowOutcome.triples]

theorem c5_witness :
    processRow (measurementColumns ["utc_timestamp", "a_b"]) ["utc_timestamp", "a_b"]
      [some "t0", some "1"] = .failed [] ∧
    (([] : List Triple) = [] ∧
      transform_csv_to_rdf ⟨["utc_timestamp", "a_b"], [[some "t0", some "1"]]⟩ =
        transform_csv_to_rdf ⟨["utc_timestamp", "a_b"], []⟩) :=
  ⟨by decide,
   c5_row_failure_isolation ["utc_timestamp", "a_b"] [] [] [some "t0", some "1"] [] (by decide)⟩

/-! ## Determinism (C8) -/

theorem declAux_mem_congr :
    ∀ (cols s1 s2 p1 p2 f1 f2 : List String),
      (∀ x, x ∈ s1 ↔ x ∈ s2) → (∀ x, x ∈ p1 ↔ x ∈ p2) → (∀ x, x ∈ f1 ↔ x ∈ f2) →
      declareEntitiesAux cols s1 p1 f1 = declareEntitiesAux cols s2 p2 f2 := by
  intro cols
  induction cols with
  | nil => intro s1 s2 p1 p2 f1 f2 _ _ _; rfl
  | cons col rest ih =>
    intro s1 s2 p1 p2 f1 f2 hs hp hf
    have hsu : (get_sensor_uri col ∈ s1) = (get_sensor_uri col ∈ s2) := propext (hs _)
    have hpu : (get_property_uri col ∈ p1) = (get_property_uri col ∈ p2) := propext (hp _)
    have hs' : ∀ x, x ∈ (if get_sensor_uri col ∈ s2 then s1 else get_sensor_uri col :: s1) ↔
        x ∈ (if get_sensor_uri col ∈ s2 then s2 else get_sensor_uri col :: s2) := by
      intro x
      by_cases hin : get_sensor_uri col ∈ s2
      · simp only [if_pos hin]; exact hs x
      · simp only [if_neg hin, List.mem_cons]
        exact or_congr Iff.rfl (hs x)
    have hp' : ∀ x, x ∈ (if get_property_uri col ∈ p2 then p1 else get_property_uri col :: p1) ↔
        x ∈ (if get_property_uri col ∈ p2 then p2 else get_property_uri col :: p2) := by
      intro x
      by_cases hin : get_property_uri col ∈ p2
      · simp only [if_pos hin]; exact hp x
      · simp only [if_neg hin, List.mem_cons]
        exact or_congr Iff.rfl (hp x)
    unfold declareEntitiesAux
    cases hfu : get_feature_of_interest_uri col with
    | none =>
      simp only [hfu, hsu, hpu]
      rw [ih _ _ _ _ _ _ hs' hp' hf]
    | some f =>
      have hfv : (f ∈ f1) = (f ∈ f2) := propext (hf f)
      have hf' : ∀ x, x ∈ (if f ∈ f2 then f1 else f :: f1) ↔
          x ∈ (if f ∈ f2 then f2 else f :: f2) := by
        intro x
        by_cases hin : f ∈ f2
        · simp only [if_pos hin]; exact hf x
        · simp only [if_neg hin, List.mem_cons]
          exact or_congr Iff.rfl (hf x)
      simp only [hfu, hsu, hpu, hfv]
      rw [ih _ _ _ _ _ _ hs' hp' hf']

theorem processCell_mem_congr (e1 e2 : List String) (ts col : String) (cell : Option String)
    (he : ∀ x, x ∈ e1 ↔ x ∈ e2) :
    processCell e1 ts col cell = processCell e2 ts col cell := by
  have h : (get_sensor_uri col ∈ e1) = (get_sensor_uri col ∈ e2) := propext (he _)
  unfold processCell
  simp only [h]

/-- C8: the transformation is a pure function of its input, and the only
uses of unordered collections (the three seen-sets and the per-row exclusion
set) are membership tests, so any two membership-equivalent representations
of those sets produce identical output statements in identical order. -/
theorem c8_determinism (cols s1 s2 p1 p2 f1 f2 e1 e2 : List String) (ts col : String)
    (cell : Option String) (csv : CSVTable)
    (hs : ∀ x, x ∈ s1 ↔ x ∈ s2) (hp : ∀ x, x ∈ p1 ↔ x ∈ p2) (hf : ∀ x, x ∈ f1 ↔ x ∈ f2)
    (he : ∀ x, x ∈ e1 ↔ x ∈ e2) :
    transform_csv_to_rdf csv = transform_csv_to_rdf csv ∧
    declareEntitiesAux cols s1 p1 f1 = declareEntitiesAux cols s2 p2 f2 ∧
    processCell e1 ts col cell = processCell e2 ts col cell :=
  ⟨rfl, declAux_mem_congr cols s1 s2 p1 p2 f1 f2 hs hp hf,
   processCell_mem_congr e1 e2 ts col cell he⟩

theorem c8_witness :
    declareEntitiesAux ["DE_KN_a_b"] ["u", "v"] [] [] =
      declareEntitiesAux ["DE_KN_a_b"] ["v", "u"] [] [] ∧
    processCell [get_sensor_uri "x_y", get_sensor_uri "a_b"] "t0" "a_b" (some "1") =
      processCell [get_sensor_uri "a_b", get_sensor_uri "x_y"] "t0" "a_b" (some "1") :=
  ⟨(c8_determinism ["DE_KN_a_b"] ["u", "v"] ["v", "u"] [] [] [] []
      [get_sensor_uri "x_y", get_sensor_uri "a_b"] [get_sensor_uri "a_b", get_sensor_uri "x_y"]
      "t0" "a_b" (some "1") ⟨[], []⟩
      (fun x => by simp only [List.mem_cons, List.mem_singleton]; tauto)
      (fun x => Iff.rfl) (fun x => Iff.rfl)
      (fun x => by simp only [List.mem_cons, List.mem_singleton]; tauto)).2.1,
   (c8_determinism ["DE_KN_a_b"] ["u", "v"] ["v", "u"] [] [] [] []
      [get_sensor_uri "x_y", get_sensor_uri "a_b"] [get_sensor_uri "a_b", get_sensor_uri "x_y"]
      "t0" "a_b" (some "1") ⟨[], []⟩
      (fun x => by simp only [List.mem_cons, List.mem_singleton]; tauto)
      (fun x => Iff.rfl) (fun x => Iff.rfl)
      (fun x => by simp only [List.mem_cons, List.mem_singleton]; tauto)).2.2⟩

/-! ## Subject-filter lemmas for the entity registry (C2, C10) -/

theorem foi_shape {c f : String} (hf : get_feature_of_interest_uri c = some f) :
    ∃ tok, f = foiURI tok := by
  unfold get_feature_of_interest_uri at hf
  cases hl : locationMatch c with
  | none => rw [hl] at hf; exact absurd hf (by simp)
  | some tok =>
    rw [hl] at hf
    simp only [Option.map_some'] at hf
    exact ⟨tok, (Option.some.inj hf).symm⟩

theorem filter_ite_nil {p : Triple → Bool} {l : List Triple} (c : Prop) [Decidable c]
    (h : l.filter p = []) : (if c then [] else l).filter p = [] := by
  by_cases hc : c
  · rw [if_pos hc]; rfl
  · rw [if_neg hc]; exact h

theorem filter_sensorBlock_self {c c0 : String} (h : get_sensor_uri c = get_sensor_uri c0) :
    (sensorBlock c).filter (subjIs (get_sensor_uri c0)) = sensorBlock c := by
  simp [sensorBlock, subjIs, h]

theorem filter_sensorBlock_ne {c c0 : String} (h : ¬ get_sensor_uri c = get_sensor_uri c0) :
    (sensorBlock c).filter (subjIs (get_sensor_uri c0)) = [] := by
  simp [sensorBlock, subjIs, h]

theorem filter_propertyBlock_sensor (c c0 : String) :
    (propertyBlock c).filter (subjIs (get_sensor_uri c0)) = [] := by
  simp [propertyBlock, subjIs, property_ne_sensor c c0]

theorem filter_foiBlock_sensor {c : String} (f c0 : String)
    (hf : get_feature_of_interest_uri c = some f) :
    (foiBlock f).filter (subjIs (get_sensor_uri c0)) = [] := by
  obtain ⟨tok, rfl⟩ := foi_shape hf
  simp [foiBlock, subjIs, foi_ne_sensor tok c0]

theorem filter_sensorBlock_property (c c0 : String) :
    (sensorBlock c).filter (subjIs (get_property_uri c0)) = [] := by
  simp [sensorBlock, subjIs, sensor_ne_property c c0]

theorem filter_propertyBlock_self {c c0 : String} (h : get_property_uri c = get_property_uri c0) :
    (propertyBlock c).filter (subjIs (get_property_uri c0)) = propertyBlock c := by
  simp [propertyBlock, subjIs, h]

theorem filter_propertyBlock_ne {c c0 : String}
    (h : ¬ get_property_uri c = get_property_uri c0) :
    (propertyBlock c).filter (subjIs (get_property_uri c0)) = [] := by
  simp [propertyBlock, subjIs, h]

theorem filter_foiBlock_property {c : String} (f c0 : String)
    (hf : get_feature_of_interest_uri c = some f) :
    (foiBlock f).filter (subjIs (get_property_uri c0)) = [] := by
  obtain ⟨tok, rfl⟩ := foi_shape hf
  simp [foiBlock, subjIs, foi_ne_property tok c0]

theorem filter_sensorBlock_foi (c : String) (tok : String) :
    (sensorBlock c).filter (subjIs (foiURI tok)) = [] := by
  have h : get_sensor_uri c ≠ foiURI tok := (foi_ne_sensor tok c).symm
  simp [sensorBlock, subjIs, h]

theorem filter_propertyBlock_foi (c : String) (tok : String) :
    (propertyBlock c).filter (subjIs (foiURI tok)) = [] := by
  have h : get_property_uri c ≠ foiURI tok := (foi_ne_property tok c).symm
  simp [propertyBlock, subjIs, h]

theorem filter_foiBlock_self {f f0 : String} (h : f = f0) :
    (foiBlock f).filter (subjIs f0) = foiBlock f := by
  simp [foiBlock, subjIs, h]

theorem filter_foiBlock_ne {f f0 : String} (h : ¬ f = f0) :
    (foiBlock f).filter (subjIs f0) = [] := by
  simp [foiBlock, subjIs, h]

/-- Filtering the registry's statements by a sensor subject leaves exactly the
sensor block of the first column deriving that sensor identity (and nothing
when the identity was already in the seen-set). -/
theorem declAux_filter_sensor (c0 : String) :
    ∀ (cols sS pS fS : List String),
      (declareEntitiesAux cols sS pS fS).filter (subjIs (get_sensor_uri c0)) =
        if get_sensor_uri c0 ∈ sS then []
        else
          match cols.find? (fun c => decide (get_sensor_uri c = get_sensor_uri c0)) with
          | some f => sensorBlock f
          | none => [] := by
  intro cols
  induction cols with
  | nil =>
    intro sS pS fS
    simp [declareEntitiesAux, List.find?]
  | cons col rest ih =>
    intro sS pS fS
    unfold declareEntitiesAux
    simp only [List.filter_append]
    have hP : ((if get_property_uri col ∈ pS then [] else propertyBlock col).filter
        (subjIs (get_sensor_uri c0))) = [] :=
      filter_ite_nil _ (filter_propertyBlock_sensor col c0)
    have hF : ((match get_feature_of_interest_uri col with
        | some f => if f ∈ fS then [] else foiBlock f
        | none => []).filter (subjIs (get_sensor_uri c0))) = [] := by
      cases hfu : get_feature_of_interest_uri col with
      | none => rfl
      | some f => exact filter_ite_nil _ (filter_foiBlock_sensor f c0 hfu)
    rw [hP, hF]
    by_cases hmem : get_sensor_uri c0 ∈ sS
    · rw [if_pos hmem]
      have hS : ((if get_sensor_uri col ∈ sS then [] else sensorBlock col).filter
          (subjIs (get_sensor_uri c0))) = [] := by
        by_cases hcs : get_sensor_uri col = get_sensor_uri c0
        · rw [if_pos (show get_sensor_uri col ∈ sS by rw [hcs]; exact hmem)]
          rfl
        · exact filter_ite_nil _ (filter_sensorBlock_ne hcs)
      rw [hS]
      have hrec : get_sensor_uri c0 ∈
          (if get_sensor_uri col ∈ sS then sS else get_sensor_uri col :: sS) := by
        by_cases h2 : get_sensor_uri col ∈ sS
        · rw [if_pos h2]; exact hmem
        · rw [if_neg h2]; exact List.mem_cons_of_mem _ hmem
      rw [ih, if_pos hrec]
      rfl
    · rw [if_neg hmem]
      by_cases hcs : get_sensor_uri col = get_sensor_uri c0
      · have hcol_not : get_sensor_uri col ∉ sS := by rw [hcs]; exact hmem
        rw [if_neg hcol_not, filter_sensorBlock_self hcs]
        have hrec : get_sensor_uri c0 ∈
            (if get_sensor_uri col ∈ sS then sS else get_sensor_uri col :: sS) := by
          rw [if_neg hcol_not, ← hcs]
          exact List.mem_cons_self _ _
        rw [ih, if_pos hrec, List.find?_cons_of_pos _ (by simp [hcs])]
        simp
      · have hS : ((if get_sensor_uri col ∈ sS then [] else sensorBlock col).filter
            (subjIs (get_sensor_uri c0))) = [] :=
          filter_ite_nil _ (filter_sensorBlock_ne hcs)
        rw [hS]
        have hrec : get_sensor_uri c0 ∉
            (if get_sensor_uri col ∈ sS then sS else get_sensor_uri col :: sS) := by
          by_cases h2 : get_sensor_uri col ∈ sS
          · rw [if_pos h2]; exact hmem
          · rw [if_neg h2]
            intro hx
            cases List.mem_cons.mp hx with
            | inl he => exact hcs he.symm
            | inr ht => exact hmem ht
        rw [ih, if_neg hrec, List.find?_cons_of_neg _ (by simp [hcs])]
        rfl

/-- Same shape for a property subject. -/
theorem declAux_filter_property (c0 : String) :
    ∀ (cols sS pS fS : List String),
      (declareEntitiesAux cols sS pS fS).filter (subjIs (get_property_uri c0)) =
        if get_property_uri c0 ∈ pS then []
        else
          match cols.find? (fun c => decide (get_property_uri c = get_property_uri c0)) with
          | some f => propertyBlock f
          | none => [] := by
  intro cols
  induction cols with
  | nil =>
    intro sS pS fS
    simp [declareEntitiesAux, List.find?]
  | cons col rest ih =>
    intro sS pS fS
    unfold declareEntitiesAux
    simp only [List.filter_append]
    have hS : ((if get_sensor_uri col ∈ sS then [] else sensorBlock col).filter
        (subjIs (get_property_uri c0))) = [] :=
      filter_ite_nil _ (filter_sensorBlock_property col c0)
    have hF : ((match get_feature_of_interest_uri col with
        | some f => if f ∈ fS then [] else foiBlock f
        | none => []).filter (subjIs (get_property_uri c0))) = [] := by
      cases hfu : get_feature_of_interest_uri col with
      | none => rfl
      | some f => exact filter_ite_nil _ (filter_foiBlock_property f c0 hfu)
    rw [hS, hF]
    by_cases hmem : get_property_uri c0 ∈ pS
    · rw [if_pos hmem]
      have hPP : ((if get_property_uri col ∈ pS then [] else propertyBlock col).filter
          (subjIs (get_property_uri c0))) = [] := by
        by_cases hcs : get_property_uri col = get_property_uri c0
        · rw [if_pos (show get_property_uri col ∈ pS by rw [hcs]; exact hmem)]
          rfl
        · exact filter_ite_nil _ (filter_propertyBlock_ne hcs)
      rw [hPP]
      have hrec : get_property_uri c0 ∈
          (if get_property_uri col ∈ pS then pS else get_property_uri col :: pS) := by
        by_cases h2 : get_property_uri col ∈ pS
        · rw [if_pos h2]; exact hmem
        · rw [if_neg h2]; exact List.mem_cons_of_mem _ hmem
      rw [ih, if_pos hrec]
      rfl
    · rw [if_neg hmem]
      by_cases hcs : get_property_uri col = get_property_uri c0
      · have hcol_not : get_property_uri col ∉ pS := by rw [hcs]; exact hmem
        rw [if_neg hcol_not, filter_propertyBlock_self hcs]
        have hrec : get_property_uri c0 ∈
            (if get_property_uri col ∈ pS then pS else get_property_uri col :: pS) := by
          rw [if_neg hcol_not, ← hcs]
          exact List.mem_cons_self _ _
        rw [ih, if_pos hrec, List.find?_cons_of_pos _ (by simp [hcs])]
        simp
      · have hPP : ((if get_property_uri col ∈ pS then [] else propertyBlock col).filter
            (subjIs (get_property_uri c0))) = [] :=
          filter_ite_nil _ (filter_propertyBlock_ne hcs)
        rw [hPP]
        have hrec : get_property_uri c0 ∉
            (if get_property_uri col ∈ pS then pS else get_property_uri col :: pS) := by
          by_cases h2 : get_property_uri col ∈ pS
          · rw [if_pos h2]; exact hmem
          · rw [if_neg h2]
            intro hx
            cases List.mem_cons.mp hx with
            | inl he => exact hcs he.symm
            | inr ht => exact hmem ht
        rw [ih, if_neg hrec, List.find?_cons_of_neg _ (by simp [hcs])]
        rfl

/-- Same shape for a FeatureOfInterest subject (the block text depends only on
the FoI URI itself). -/
theorem declAux_filter_foi (tok : String) :
    ∀ (cols sS pS fS : List String),
      (declareEntitiesAux cols sS pS fS).filter (subjIs (foiURI tok)) =
        if foiURI tok ∈ fS then []
        else
          match cols.find?
              (fun c => decide (get_feature_of_interest_uri c = some (foiURI tok))) with
          | some _f => foiBlock (foiURI tok)
          | none => [] := by
  intro cols
  induction cols with
  | nil =>
    intro sS pS fS
    simp [declareEntitiesAux, List.find?]
  | cons col rest ih =>
    intro sS pS fS
    unfold declareEntitiesAux
    simp only [List.filter_append]
    have hS : ((if get_sensor_uri col ∈ sS then [] else sensorBlock col).filter
        (subjIs (foiURI tok))) = [] :=
      filter_ite_nil _ (filter_sensorBlock_foi col tok)
    have hP : ((if get_property_uri col ∈ pS then [] else propertyBlock col).filter
        (subjIs (foiURI tok))) = [] :=
      filter_ite_nil _ (filter_propertyBlock_foi col tok)
    rw [hS, hP]
    cases hfu : get_feature_of_interest_uri col with
    | none =>
      by_cases hmem : foiURI tok ∈ fS
      · rw [if_pos hmem, ih, if_pos hmem]
        rfl
      · rw [if_neg hmem, ih, if_neg hmem,
          List.find?_cons_of_neg _ (by simp [hfu])]
        rfl
    | some f =>
      by_cases hcs : f = foiURI tok
      · subst hcs
        by_cases hmem : foiURI tok ∈ fS
        · simp only [if_pos hmem]
          rw [ih, if_pos hmem]
          rfl
        · simp only [if_neg hmem]
          rw [filter_foiBlock_self rfl, ih,
            if_pos (List.mem_cons_self (foiURI tok) fS),
            List.find?_cons_of_pos _ (by simp [hfu])]
          simp
      · have hFF : ((if f ∈ fS then [] else foiBlock f).filter (subjIs (foiURI tok))) = [] :=
          filter_ite_nil _ (filter_foiBlock_ne hcs)
        rw [hFF]
        by_cases hmem : foiURI tok ∈ fS
        · rw [if_pos hmem]
          have hrec : foiURI tok ∈ (if f ∈ fS then fS else f :: fS) := by
            by_cases h2 : f ∈ fS
            · rw [if_pos h2]; exact hmem
            · rw [if_neg h2]; exact List.mem_cons_of_mem _ hmem
          rw [ih, if_pos hrec]
          rfl
        · rw [if_neg hmem]
          have hrec : foiURI tok ∉ (if f ∈ fS then fS else f :: fS) := by
            by_cases h2 : f ∈ fS
            · rw [if_pos h2]; exact hmem
            · rw [if_neg h2]
              intro hx
              cases List.mem_cons.mp hx with
              | inl he => exact hcs he.symm
              | inr ht => exact hmem ht
          rw [ih, if_neg hrec,
            List.find?_cons_of_neg _ (by simp [hfu, hcs])]
          rfl

/-! ## Observation statements never use a registry subject -/

theorem obsBlock_subj (ts col : String) (q : PyFloat) :
    ∀ t ∈ obsBlock ts col q, t.1 = Term.uri (obs_uri col ts) := by
  intro t ht
  unfold obsBlock at ht
  cases hfoi : get_feature_of_interest_uri col with
  | none =>
    rw [hfoi] at ht
    simp only [List.append_nil, List.mem_cons, List.not_mem_nil, or_false] at ht
    rcases ht with rfl | rfl | rfl | rfl | rfl <;> rfl
  | some f =>
    rw [hfoi] at ht
    simp only [List.mem_append, List.mem_cons, List.not_mem_nil, or_false] at ht
    rcases ht with (rfl | rfl | rfl | rfl | rfl) | rfl <;> rfl

theorem processCell_subj (excl : List String) (ts col : String) (cell : Option String) :
    ∀ t ∈ processCell excl ts col cell, t.1 = Term.uri (obs_uri col ts) := by
  intro t ht
  by_cases hm : get_sensor_uri col ∈ excl
  · simp only [processCell, if_pos hm] at ht
    exact absurd ht (List.not_mem_nil t)
  · cases cell with
    | none =>
      simp only [processCell, if_neg hm] at ht
      exact absurd ht (List.not_mem_nil t)
    | some v =>
      cases hp : pyFloat v with
      | none =>
        simp only [processCell, if_neg hm, hp] at ht
        exact absurd ht (List.not_mem_nil t)
      | some q =>
        simp only [processCell, if_neg hm, hp] at ht
        exact obsBlock_subj ts col q t ht

theorem processColumns_subj (header : List String) (cells : List (Option String))
    (excl : List String) (ts : String) :
    ∀ cols, ∀ t ∈ (processColumns header cells excl ts cols).triples,
      ∃ col, t.1 = Term.uri (obs_uri col ts) := by
  intro cols
  induction cols with
  | nil =>
    intro t ht
    exact absurd ht (List.not_mem_nil t)
  | cons col rest ih =>
    intro t ht
    unfold processColumns at ht
    cases hc : lookupCell header cells col with
    | none =>
      rw [hc] at ht
      exact absurd ht (List.not_mem_nil t)
    | some cell =>
      rw [hc] at ht
      cases hrec : processColumns header cells excl ts rest with
      | ok more =>
        rw [hrec] at ht
        rcases List.mem_append.mp ht with h1 | h2
        · exact ⟨col, processCell_subj excl ts col cell t h1⟩
        · exact ih t (by rw [hrec]; exact h2)
      | failed more =>
        rw [hrec] at ht
        rcases List.mem_append.mp ht with h1 | h2
        · exact ⟨col, processCell_subj excl ts col cell t h1⟩
        · exact ih t (by rw [hrec]; exact h2)

theorem processRow_subj (mcols header : List String) (cells : List (Option String)) :
    ∀ t ∈ (processRow mcols header cells).triples,
      ∃ col ts, t.1 = Term.uri (obs_uri col ts) := by
  intro t ht
  unfold processRow at ht
  cases hts : lookupCell header cells "utc_timestamp" with
  | none =>
    rw [hts] at ht
    exact absurd ht (List.not_mem_nil t)
  | some tsCell =>
    rw [hts] at ht
    cases hint : lookupCell header cells "interpolated" with
    | none =>
      rw [hint] at ht
      exact absurd ht (List.not_mem_nil t)
    | some interpCell =>
      rw [hint] at ht
      obtain ⟨col, hcol⟩ := processColumns_subj header cells _ _ mcols t ht
      exact ⟨col, _, hcol⟩

/-- Filtering the whole run's statements by a non-Observation subject reduces
to filtering the registry statements. -/
theorem transform_filter_subj (csv : CSVTable) (u : String)
    (hne : ∀ col ts, obs_uri col ts ≠ u) :
    (transform_csv_to_rdf csv).filter (subjIs u) =
      (declareEntities (measurementColumns csv.header)).filter (subjIs u) := by
  unfold transform_csv_to_rdf
  simp only [List.filter_append]
  have hrows : ((csv.rows.map
      (fun r => (processRow (measurementColumns csv.header) csv.header r).triples)).flatten).filter
      (subjIs u) = [] := by
    rw [List.filter_eq_nil_iff]
    intro t ht
    obtain ⟨l, hl, htl⟩ := List.mem_flatten.mp ht
    obtain ⟨r, hr, rfl⟩ := List.mem_map.mp hl
    obtain ⟨col, ts, hsubj⟩ := processRow_subj _ _ r t htl
    simp [subjIs, hsubj, hne col ts]
  rw [hrows]
  simp

/-- C2: each distinct derived Sensor, Property and FeatureOfInterest identity
receives exactly one type declaration and exactly one label declaration over
the whole run, however many columns or rows map to it — the count depends only
on the derived identity, so columns with equal identities share one
declaration. -/
theorem c2_declared_exactly_once (csv : CSVTable) (c : String)
    (hc : c ∈ measurementColumns csv.header) :
    countTriples (transform_csv_to_rdf csv)
        (fun t => predIs RDF_type t && subjIs (get_sensor_uri c) t) = 1 ∧
    countTriples (transform_csv_to_rdf csv)
        (fun t => predIs RDFS_label t && subjIs (get_sensor_uri c) t) = 1 ∧
    countTriples (transform_csv_to_rdf csv)
        (fun t => predIs RDF_type t && subjIs (get_property_uri c) t) = 1 ∧
    countTriples (transform_csv_to_rdf csv)
        (fun t => predIs RDFS_label t && subjIs (get_property_uri c) t) = 1 ∧
    (∀ f, get_feature_of_interest_uri c = some f →
      countTriples (transform_csv_to_rdf csv)
          (fun t => predIs RDF_type t && subjIs f t) = 1 ∧
      countTriples (transform_csv_to_rdf csv)
          (fun t => predIs RDFS_label t && subjIs f t) = 1) := by
  have hcount : ∀ (p : Triple → Bool) (u : String),
      countTriples (transform_csv_to_rdf csv) (fun t => p t && subjIs u t) =
        ((transform_csv_to_rdf csv).filter (subjIs u)).countP p := by
    intro p u
    unfold countTriples
    rw [List.countP_filter]
  obtain ⟨fs, hfs⟩ : ∃ fs, (measurementColumns csv.header).find?
      (fun c' => decide (get_sensor_uri c' = get_sensor_uri c)) = some fs := by
    have hpc : decide (get_sensor_uri c = get_sensor_uri c) = true := by simp
    have h : ((measurementColumns csv.header).find?
        (fun c' => decide (get_sensor_uri c' = get_sensor_uri c))).isSome :=
      List.find?_isSome.mpr ⟨c, hc, hpc⟩
    cases h2 : (measurementColumns csv.header).find?
        (fun c' => decide (get_sensor_uri c' = get_sensor_uri c)) with
    | none => rw [h2] at h; exact absurd h (by simp)
    | some fs => exact ⟨fs, rfl⟩
  have hsensor : (transform_csv_to_rdf csv).filter (subjIs (get_sensor_uri c)) =
      sensorBlock fs := by
    rw [transform_filter_subj csv _ (fun col ts => obs_ne_sensor col ts c)]
    unfold declareEntities
    rw [declAux_filter_sensor]
    simp [hfs]
  obtain ⟨fp, hfp⟩ : ∃ fp, (measurementColumns csv.header).find?
      (fun c' => decide (get_property_uri c' = get_property_uri c)) = some fp := by
    have hpc : decide (get_property_uri c = get_property_uri c) = true := by simp
    have h : ((measurementColumns csv.header).find?
        (fun c' => decide (get_property_uri c' = get_property_uri c))).isSome :=
      List.find?_isSome.mpr ⟨c, hc, hpc⟩
    cases h2 : (measurementColumns csv.header).find?
        (fun c' => decide (get_property_uri c' = get_property_uri c)) with
    | none => rw [h2] at h; exact absurd h (by simp)
    | some fp => exact ⟨fp, rfl⟩
  have hproperty : (transform_csv_to_rdf csv).filter (subjIs (get_property_uri c)) =
      propertyBlock fp := by
    rw [transform_filter_subj csv _ (fun col ts => obs_ne_property col ts c)]
    unfold declareEntities
    rw [declAux_filter_property]
    simp [hfp]
  refine ⟨?_, ?_, ?_, ?_, ?_⟩
  · rw [hcount, hsensor]
    simp [sensorBlock, predIs, List.countP_cons, RDF_type, RDFS_label, SAREF_measuresProperty,
      SAREF]
  · rw [hcount, hsensor]
    simp [sensorBlock, predIs, List.countP_cons, RDF_type, RDFS_label, SAREF_measuresProperty,
      SAREF]
  · rw [hcount, hproperty]
    simp [propertyBlock, predIs, List.countP_cons, RDF_type, RDFS_label]
  · rw [hcount, hproperty]
    simp [propertyBlock, predIs, List.countP_cons, RDF_type, RDFS_label]
  · intro f hfoi
    obtain ⟨tok, rfl⟩ := foi_shape hfoi
    obtain ⟨ff, hff⟩ : ∃ ff, (measurementColumns csv.header).find?
        (fun c' => decide (get_feature_of_interest_uri c' = some (foiURI tok))) = some ff := by
      have hpc : decide (get_feature_of_interest_uri c = some (foiURI tok)) = true := by
        simp [hfoi]
      have h : ((measurementColumns csv.header).find?
          (fun c' => decide (get_feature_of_interest_uri c' = some (foiURI tok)))).isSome :=
        List.find?_isSome.mpr ⟨c, hc, hpc⟩
      cases h2 : (measurementColumns csv.header).find?
          (fun c' => decide (get_feature_of_interest_uri c' = some (foiURI tok))) with
      | none => rw [h2] at h; exact absurd h (by simp)
      | some ff => exact ⟨ff, rfl⟩
    have hfoiF : (transform_csv_to_rdf csv).filter (subjIs (foiURI tok)) =
        foiBlock (foiURI tok) := by
      rw [transform_filter_subj csv _ (fun col ts => obs_ne_foi col ts tok)]
      unfold declareEntities
      rw [declAux_filter_foi]
      simp [hff]
    constructor
    · rw [hcount, hfoiF]
      simp [foiBlock, predIs, List.countP_cons, RDF_type, RDFS_label]
    · rw [hcount, hfoiF]
      simp [foiBlock, predIs, List.countP_cons, RDF_type, RDFS_label]

theorem c2_witness :
    "DE_KN_Building1_Grid_import" ∈ measurementColumns exampleCSV.header ∧
    countTriples (transform_csv_to_rdf exampleCSV)
      (fun t => predIs RDF_type t &&
        subjIs (get_sensor_uri "DE_KN_Building1_Grid_import") t) = 1 :=
  ⟨by decide, (c2_declared_exactly_once exampleCSV "DE_KN_Building1_Grid_import" (by decide)).1⟩

/-- C10: the declared label of a Sensor identity — and its measuresProperty
link — come from the first header column deriving that identity; later columns
with the same identity contribute no further label or link statements. The
same holds for a Property identity's label. -/
theorem c10_first_column_wins (csv : CSVTable) (c f : String)
    (hf : (measurementColumns csv.header).find?
        (fun c' => decide (get_sensor_uri c' = get_sensor_uri c)) = some f) :
    ((transform_csv_to_rdf csv).filter (subjIs (get_sensor_uri c))).filter
        (predIs RDFS_label) =
      [(Term.uri (get_sensor_uri f), Term.uri RDFS_label,
        Term.litStr ("Sensor for " ++ f))] ∧
    ((transform_csv_to_rdf csv).filter (subjIs (get_sensor_uri c))).filter
        (predIs SAREF_measuresProperty) =
      [(Term.uri (get_sensor_uri f), Term.uri SAREF_measuresProperty,
        Term.uri (get_property_uri f))] ∧
    ∀ g, (measurementColumns csv.header).find?
        (fun c' => decide (get_property_uri c' = get_property_uri c)) = some g →
      ((transform_csv_to_rdf csv).filter (subjIs (get_property_uri c))).filter
          (predIs RDFS_label) =
        [(Term.uri (get_property_uri g), Term.uri RDFS_label,
          Term.litStr ("Property measured by " ++ g))] := by
  have hsensor : (transform_csv_to_rdf csv).filter (subjIs (get_sensor_uri c)) =
      sensorBlock f := by
    rw [transform_filter_subj csv _ (fun col ts => obs_ne_sensor col ts c)]
    unfold declareEntities
    rw [declAux_filter_sensor]
    simp [hf]
  refine ⟨?_, ?_, ?_⟩
  · rw [hsensor]
    simp [sensorBlock, predIs, RDF_type, RDFS_label, SAREF_measuresProperty, SAREF]
  · rw [hsensor]
    simp [sensorBlock, predIs, RDF_type, RDFS_label, SAREF_measuresProperty, SAREF]
  · intro g hg
    have hproperty : (transform_csv_to_rdf csv).filter (subjIs (get_property_uri c)) =
        propertyBlock g := by
      rw [transform_filter_subj csv _ (fun col ts => obs_ne_property col ts c)]
      unfold declareEntities
      rw [declAux_filter_property]
      simp [hg]
    rw [hproperty]
    simp [propertyBlock, predIs, RDF_type, RDFS_label]

/-- Header with two columns deriving the same sensor and property identities
(`sanitize_for_uri` strips the `DE_KN_` marker, so `DE_KN_a_b` and `a_b`
collide). -/
def c10CSV : CSVTable :=
  ⟨["utc_timestamp", "interpolated", "DE_KN_a_b", "a_b"], []⟩

theorem c10_witness :
    (measurementColumns c10CSV.header).find?
        (fun c' => decide (get_sensor_uri c' = get_sensor_uri "a_b")) = some "DE_KN_a_b" ∧
    ((transform_csv_to_rdf c10CSV).filter (subjIs (get_sensor_uri "a_b"))).filter
        (predIs RDFS_label) =
      [(Term.uri (get_sensor_uri "DE_KN_a_b"), Term.uri RDFS_label,
        Term.litStr ("Sensor for " ++ "DE_KN_a_b"))] :=
  ⟨by decide, (c10_first_column_wins c10CSV "a_b" "DE_KN_a_b" (by decide)).1⟩

end TurtleTransformer
